import Mathlib

/-
Verification of the QTMtoolbox live-plotting subsystem (QTMplot_dual.pyw:
the dual variant, the v1.1 variant, and the heatmap variant, which share
their data-refresh logic; line numbers below refer to that file).

Modelling conventions:
  - Numeric samples and modification timestamps are embedded as integers;
    the logic under study only compares samples for equality or order and
    measures lengths, so no floating-point behaviour is involved.  The
    floating-point rectangle arithmetic of ImageItem.setRect is not
    modelled, but the list accesses it performs (which can raise
    IndexError) are.
  - A Python exception escaping the modelled code is represented by the
    value none of an Option result; partial widget mutations performed
    before a raise are not tracked.
  - os.walk with its default onerror=None yields no entries for a missing
    or unreadable root directory; os.listdir raises FileNotFoundError or
    PermissionError in those situations.  QComboBox.setCurrentIndex with
    an out-of-range index leaves the box with no current item (index -1).
-/

/-- One named column of a parsed measurement file (an element of the list
returned by parse_data). -/
structure ParsedVar where
  name : String
  data : List Int
deriving DecidableEq

/-- Which page of the QStackedLayout is showing: the line plot
(graphWidget) or the heatmap (imageWidget). -/
inductive Widget
  | line
  | image
deriving DecidableEq

/-- The mutable state of the heatmap MainWindow that the refresh logic
reads and writes: combobox contents and current rows, the cached axis
indices, the arrays handed to the rendering widgets, and the file path. -/
structure State where
  varNames : List String
  xboxItems : List String
  yboxItems : List String
  zboxItems : List String
  xboxCurrent : Int
  yboxCurrent : Int
  zboxCurrent : Int
  xindex : Nat
  yindex : Nat
  zindex : Int
  x : List Int
  y : List Int
  zgrid : List (List Int)
  levels : Int × Int
  widget : Widget
  bottomLabel : String
  leftLabel : String
  filename : String
  slowbox : Bool
deriving DecidableEq

/-- np.argmax(c != c[0]) for the coordinate series c0 :: cs: the index of
the first sample differing from the first one, and 0 when no sample
differs (np.argmax of an all-False array is 0).  Line 688 / line 694. -/
def argmaxNeqHead (c0 : Int) (cs : List Int) : Nat :=
  match cs.findIdx? (fun a => a != c0) with
  | some i => i + 1
  | none => 0

/-- Row-major chunking with structural fuel; chunkGo l.length w l splits l
into consecutive rows of width w when w > 0. -/
def chunkGo : Nat → Nat → List Int → List (List Int)
  | 0, _, _ => []
  | _ + 1, _, [] => []
  | fuel + 1, w, a :: l => (a :: l).take w :: chunkGo fuel w ((a :: l).drop w)

/-- Splits a list into consecutive rows of width w (row-major, as
np.reshape is). -/
def chunkList (w : Nat) (l : List Int) : List (List Int) :=
  chunkGo l.length w l

/-- np.reshape(arr, (-1, w)): the array is split into rows of length w;
a ValueError (none) occurs unless w is positive and divides the size. -/
def reshapeRows (l : List Int) (w : Nat) : Option (List (List Int)) :=
  if w ≠ 0 ∧ l.length % w = 0 then some (chunkList w l) else none

/-- Lines 688-690 (and the reshape of line 694-696 before its .T): given
the designated fast-axis series c and the value series z,
  length = np.argmax(c != c[0]);
  cutoff = max(int(len(z) / length), 1);
  np.reshape(z[:length * cutoff], (-1, length)).
none models the raised exceptions: IndexError on c[0] for an empty c,
the division by zero inside int(len(z) / length) when length is 0, and a
reshape size mismatch. -/
def inferGrid (c z : List Int) : Option (List (List Int)) :=
  match c with
  | [] => none
  | c0 :: cs =>
    let length := argmaxNeqHead c0 cs
    if length = 0 then none
    else
      let cutoff := max (z.length / length) 1
      reshapeRows (z.take (length * cutoff)) length

/-- Line 696: the swapped orientation reshapes against the y period and
transposes the result (.T). -/
def inferGridSw (c z : List Int) : Option (List (List Int)) :=
  (inferGrid c z).map List.transpose

/-- The fast-axis period of a coordinate series (np.argmax(c != c[0]);
0 for an empty or never-changing series). -/
def periodOf : List Int → Nat
  | [] => 0
  | c0 :: cs => argmaxNeqHead c0 cs

/-- The sample accesses performed by ImageItem.setRect on lines 692 and
698: x[length], x[0], x[-1], y[1], y[0], y[length-1] for the unswapped
orientation and the mirrored set for the swapped one.  Only the accesses
(which can raise IndexError) are modelled, not the float rectangle. -/
def rectAccessOk (swap : Bool) (x y : List Int) (p : Nat) : Bool :=
  if swap then
    (x.get? 1).isSome && (y.get? p).isSome && (x.get? (p - 1)).isSome &&
      (x.get? 0).isSome && (y.get? 0).isSome && y.getLast?.isSome
  else
    (x.get? p).isSome && (y.get? 1).isSome && (y.get? (p - 1)).isSome &&
      (x.get? 0).isSome && (y.get? 0).isSome && x.getLast?.isSome

/-- np.min / np.max over the reshaped array, as used by
colorbar.setLevels on line 699; both raise ValueError (none) on an array
with no elements. -/
def gridLevels (g : List (List Int)) : Option (Int × Int) :=
  match g.flatten with
  | [] => none
  | a :: rest => some (rest.foldl min a, rest.foldl max a)

/-- Lines 680-699, the heatmap image branch, given the slow-axis swap
checkbox and the selected x, y and value series: infer the grid (with
the transpose when swapped), perform the setRect sample accesses, and
compute the colorbar levels. -/
def imageBranch (swap : Bool) (x y z : List Int) : Option (List (List Int) × Int × Int) :=
  match (if swap then inferGridSw y z else inferGrid x z) with
  | none => none
  | some g =>
    if rectAccessOk swap x y (periodOf (if swap then y else x)) then
      match gridLevels g with
      | none => none
      | some lv => some (g, lv.1, lv.2)
    else none

/-- QComboBox.setCurrentIndex: an index outside the item range leaves the
combo box with no current item (current index -1). -/
def setCurrentIdx (items : List String) (i : Int) : Int :=
  if 0 ≤ i ∧ i < (items.length : Int) then i else -1

/-- Python list indexing with a possibly negative index: a negative index
counts from the end; an index out of range raises IndexError (none). -/
def pyGetV (l : List ParsedVar) (i : Int) : Option ParsedVar :=
  if 0 ≤ i then l.get? i.toNat
  else if 0 ≤ i + (l.length : Int) then l.get? (i + (l.length : Int)).toNat
  else none

/-- Lines 648-661, the newFile block of the heatmap updateData: rebuild
var_names from the parsed data, refill the three combo boxes (xbox and
ybox before "<none>" is appended, zbox after), restore the x/y current
rows from the passed indices, and force zindex to the sentinel position
len(var_names) - 1, which equals the number of parsed variables. -/
def newFileUpdate (data : List ParsedVar) (st : State) (xindex yindex : Nat) : State :=
  { st with
      varNames := data.map ParsedVar.name ++ [ "<none>" ],
      xboxItems := data.map ParsedVar.name,
      yboxItems := data.map ParsedVar.name,
      zboxItems := data.map ParsedVar.name ++ [ "<none>" ],
      xboxCurrent := setCurrentIdx (data.map ParsedVar.name) (xindex : Int),
      yboxCurrent := setCurrentIdx (data.map ParsedVar.name) (yindex : Int),
      zindex := (data.length : Int),
      zboxCurrent := setCurrentIdx (data.map ParsedVar.name ++ [ "<none>" ]) (data.length : Int) }

/-- Lines 663-668: the empty-data branch clears the plotted arrays and
re-shows the (cleared) line widget. -/
def emptyBranch (st : State) : State :=
  { st with widget := Widget.line, x := [], y := [] }

/-- Lines 670-678: the line branch shows the line widget, forces zindex
(and the zbox current row) back to the sentinel, and hands the selected
series to the line item. -/
def lineBranch (st : State) (xd yd : List Int) : State :=
  { st with
      widget := Widget.line,
      zindex := (st.varNames.length : Int) - 1,
      zboxCurrent := setCurrentIdx st.zboxItems ((st.varNames.length : Int) - 1),
      x := xd, y := yd }

/-- Lines 681-699: the image branch shows the image widget and stores the
selected series, the reshaped grid and the colorbar levels. -/
def imageSet (st : State) (xd yd : List Int) (gl : List (List Int) × Int × Int) : State :=
  { st with
      widget := Widget.image,
      x := xd, y := yd,
      zgrid := gl.1,
      levels := (gl.2.1, gl.2.2) }

/-- Lines 700-704: the axis labels are set from var_names[xindex] and
var_names[yindex] in every branch; an out-of-range index raises (none). -/
def setLabels (st : State) (xindex yindex : Nat) : Option State :=
  match st.varNames.get? xindex, st.varNames.get? yindex with
  | some lx, some ly => some { st with bottomLabel := lx, leftLabel := ly }
  | _, _ => none

/-- Lines 662-704 of the heatmap updateData, after the newFile block: the
branch on len(data[xindex].data) == 0, then on whether zindex is -1 (the
Python default) or the sentinel len(var_names) - 1, and finally the label
updates.  data[xindex], data[yindex] and data[zindex] raise IndexError
(none) when out of range. -/
def updateDataCore (data : List ParsedVar) (st1 : State) (xindex yindex : Nat) (zindex : Int) : Option State :=
  match data.get? xindex with
  | none => none
  | some xvar =>
    if xvar.data = [] then setLabels (emptyBranch st1) xindex yindex
    else
      if zindex = -1 ∨ zindex = (st1.varNames.length : Int) - 1 then
        match data.get? yindex with
        | none => none
        | some yvar => setLabels (lineBranch st1 xvar.data yvar.data) xindex yindex
      else
        match data.get? yindex, pyGetV data zindex with
        | some yvar, some zvar =>
          match imageBranch st1.slowbox xvar.data yvar.data zvar.data with
          | none => none
          | some gl => setLabels (imageSet st1 xvar.data yvar.data gl) xindex yindex
        | _, _ => none

/-- Lines 641-704: the heatmap updateData.  The file named by the state is
parsed (parse models parse_data), the combo boxes are rebuilt when
newFile is set, and the data branches run.  none models an escaped
exception. -/
def updateData (parse : String → List ParsedVar) (st : State)
    (xindex yindex : Nat) (zindex : Int) (newFile : Bool) : Option State :=
  match newFile with
  | true => updateDataCore (parse st.filename)
      (newFileUpdate (parse st.filename) st xindex yindex) xindex yindex zindex
  | false => updateDataCore (parse st.filename) st xindex yindex zindex

/-- The watched data directory as one poll tick observes it: present with
a flat snapshot of (path, mtime) pairs for the files a recursive walk
discovers, or missing, or unreadable. -/
inductive FS
  | missing
  | unreadable
  | present (files : List (String × Int))

/-- os.walk('Data') with its default onerror=None: a missing or unreadable
root produces no entries rather than an error (lines 734-736). -/
def osWalk : FS → List (String × Int)
  | .present files => files
  | _ => []

/-- os.listdir('Data') as the v1.1 variant uses it (line 440): raises
FileNotFoundError on a missing directory and PermissionError on an
unreadable one (none); otherwise the directory entries with their
modification times. -/
def osListdir : FS → Option (List (String × Int))
  | .present files => some files
  | _ => none

/-- Contiguous-substring test on character lists. -/
def hasSub (needle : List Char) : List Char → Bool
  | [] => needle.isEmpty
  | c :: rest => needle.isPrefixOf (c :: rest) || hasSub needle rest

/-- Python's substring test '.csv' in f (line 743). -/
def csvIn (f : String) : Bool :=
  hasSub ".csv".toList f.toList

/-- A true suffix test, stated for comparison with the substring filter
the code actually applies. -/
def endsIn (suffix_ f : String) : Bool :=
  suffix_.toList.reverse.isPrefixOf f.toList.reverse

/-- Lines 740-746: one step of the scan keeping the latest '.csv' match;
a file participates when its path contains '.csv' and strictly beats the
running maximum timestamp. -/
def latestCsvStep (acc p : String × Int) : String × Int :=
  if csvIn p.1 = true then (if acc.2 < p.2 then p else acc) else acc

/-- Lines 740-746: the freshest-file scan over the walked entries,
starting from max_stamp = 0 and latest_file = '' (the empty path is the
"none found" result). -/
def latestCsv (files : List (String × Int)) : String × Int :=
  files.foldl latestCsvStep ( "", 0 )

/-- Lines 436-452 of the v1.1 variant: the same freshest-file scan, but
over os.listdir, whose failure on a missing or unreadable directory is
not caught (none = the tick raises). -/
def locateLatestV1 (fs : FS) : Option (String × Int) :=
  (osListdir fs).map latestCsv

/-- Lines 729-754: the heatmap livePlotting tick.  When a latest file was
found it is either refreshed (same absolute path: updateData with the
stored zindex and newFile left False) or loaded fresh (updateData with
the default zindex -1 and newFile=True) after storing the new path;
when nothing was found the tick does nothing. -/
def livePlotting (parse : String → List ParsedVar) (abspath : String → String)
    (fs : FS) (st : State) : Option State :=
  if 0 < (latestCsv (osWalk fs)).1.length then
    if abspath (latestCsv (osWalk fs)).1 = st.filename then
      updateData parse st st.xindex st.yindex st.zindex false
    else
      updateData parse { st with filename := abspath (latestCsv (osWalk fs)).1 }
        st.xindex st.yindex (-1) true
  else some st

/-- Lines 716-721: the zbox activation handler stores the chosen row and
refreshes, passing the zindex only when it is not the sentinel. -/
def zboxindex (parse : String → List ParsedVar) (st : State) (i : Nat) : Option State :=
  if (i : Int) = ((({ st with zindex := (i : Int) } : State).varNames.length : Int) - 1) then
    updateData parse { st with zindex := (i : Int) } st.xindex st.yindex (-1) false
  else
    updateData parse { st with zindex := (i : Int) } st.xindex st.yindex (i : Int) false

/-- Modelled from the spec: the Tabular Data Parser parse_data (from the
qtmimport module, which is not among these sources).  Spec 4.1: the
header row lists the variable names in order; every later record holds
one numeric sample per column, columns aligned to the header; a file
with a header and zero data records yields an empty series for every
name. -/
def parse_data (header : List String) (rows : List (List Int)) : List ParsedVar :=
  (List.range header.length).map fun i =>
    ⟨ header.getD i "", rows.filterMap fun r => r.get? i ⟩

/-- A baseline window state as it stands after the heatmap variant has
loaded a three-variable file: var_names carries the appended "<none>"
sentinel and the value axis sits on it. -/
def stBase : State :=
  { varNames := [ "x", "y", "z", "<none>" ],
    xboxItems := [ "x", "y", "z" ],
    yboxItems := [ "x", "y", "z" ],
    zboxItems := [ "x", "y", "z", "<none>" ],
    xboxCurrent := 0, yboxCurrent := 1, zboxCurrent := 3,
    xindex := 0, yindex := 1, zindex := 3,
    x := [], y := [], zgrid := [], levels := (0, 0),
    widget := Widget.line,
    bottomLabel := "", leftLabel := "",
    filename := "Data/run.csv", slowbox := false }

/-- A parsed file whose fast axis has period 3 but whose value column has
only two samples, so the period exceeds the value series' length. -/
def parseShortZ : String → List ParsedVar := fun _ =>
  [ ⟨ "x", [0, 0, 0, 1] ⟩, ⟨ "y", [0, 1, 2, 3] ⟩, ⟨ "z", [1, 2] ⟩ ]

/-- A parsed file with a header and zero data rows: every series empty. -/
def parseNoRows : String → List ParsedVar := fun _ =>
  [ ⟨ "x", [] ⟩, ⟨ "y", [] ⟩, ⟨ "z", [] ⟩ ]

/-- A parsed file with only two variables. -/
def parseTwo : String → List ParsedVar := fun _ =>
  [ ⟨ "A", [1, 2] ⟩, ⟨ "B", [3, 4] ⟩ ]

/-- A complete 3 x 3 sweep: fast axis x of period 3, slow axis y, and a
value column of length 9. -/
def parseSweep : String → List ParsedVar := fun _ =>
  [ ⟨ "x", [0, 0, 0, 1, 1, 1, 2, 2, 2] ⟩,
    ⟨ "y", [0, 1, 2, 0, 1, 2, 0, 1, 2] ⟩,
    ⟨ "z", [10, 11, 12, 13, 14, 15, 16, 17, 18] ⟩ ]


theorem chunkGo_flatten (fuel : Nat) : ∀ (w : Nat) (l : List Int), w ≠ 0 →
    l.length ≤ fuel → (chunkGo fuel w l).flatten = l := by
  induction fuel with
  | zero =>
    intro w l _ hlen
    have : l = [] := List.eq_nil_of_length_eq_zero (Nat.le_zero.mp hlen)
    subst this
    rfl
  | succ n ih =>
    intro w l hw hlen
    cases l with
    | nil => rfl
    | cons a t =>
      have hdrop : ((a :: t).drop w).length ≤ n := by
        rw [List.length_drop]
        have hw1 : 1 ≤ w := Nat.one_le_iff_ne_zero.mpr hw
        simp only [List.length_cons] at hlen ⊢
        omega
      simp only [chunkGo, List.flatten_cons, ih w ((a :: t).drop w) hw hdrop,
        List.take_append_drop]

theorem chunkGo_length (fuel : Nat) : ∀ (w : Nat) (l : List Int), w ≠ 0 →
    l.length ≤ fuel → w ∣ l.length → (chunkGo fuel w l).length = l.length / w := by
  induction fuel with
  | zero =>
    intro w l _ hlen _
    have : l = [] := List.eq_nil_of_length_eq_zero (Nat.le_zero.mp hlen)
    subst this
    simp [chunkGo]
  | succ n ih =>
    intro w l hw hlen hdvd
    cases l with
    | nil => simp [chunkGo]
    | cons a t =>
      obtain ⟨k, hk⟩ := hdvd
      have hk1 : 1 ≤ k := by
        by_contra hcon
        have : k = 0 := by omega
        subst this
        simp at hk
      have hwle : w ≤ (a :: t).length := by
        rw [hk]
        calc w = w * 1 := (Nat.mul_one w).symm
        _ ≤ w * k := Nat.mul_le_mul_left w hk1
      have hdlen : ((a :: t).drop w).length = w * (k - 1) := by
        rw [List.length_drop, hk, Nat.mul_sub, Nat.mul_one]
      have hdle : ((a :: t).drop w).length ≤ n := by
        rw [List.length_drop]
        have hw1 : 1 ≤ w := Nat.one_le_iff_ne_zero.mpr hw
        simp only [List.length_cons] at hlen ⊢
        omega
      have hddvd : w ∣ ((a :: t).drop w).length := by
        rw [hdlen]
        exact Dvd.intro (k - 1) rfl
      have hlen2 : t.length + 1 = w * k := by simpa using hk
      simp only [chunkGo, List.length_cons]
      rw [ih w ((a :: t).drop w) hw hdle hddvd, hdlen, hlen2,
        Nat.mul_div_cancel_left _ (Nat.pos_of_ne_zero hw),
        Nat.mul_div_cancel_left _ (Nat.pos_of_ne_zero hw)]
      omega

theorem chunkGo_rows (fuel : Nat) : ∀ (w : Nat) (l : List Int), w ≠ 0 →
    l.length ≤ fuel → w ∣ l.length →
    ∀ r ∈ chunkGo fuel w l, r.length = w := by
  induction fuel with
  | zero =>
    intro w l _ hlen _ r hr
    have : l = [] := List.eq_nil_of_length_eq_zero (Nat.le_zero.mp hlen)
    subst this
    simp [chunkGo] at hr
  | succ n ih =>
    intro w l hw hlen hdvd r hr
    cases l with
    | nil => simp [chunkGo] at hr
    | cons a t =>
      obtain ⟨k, hk⟩ := hdvd
      have hk1 : 1 ≤ k := by
        by_contra hcon
        have : k = 0 := by omega
        subst this
        simp at hk
      have hwle : w ≤ (a :: t).length := by
        rw [hk]
        calc w = w * 1 := (Nat.mul_one w).symm
        _ ≤ w * k := Nat.mul_le_mul_left w hk1
      have hdle : ((a :: t).drop w).length ≤ n := by
        rw [List.length_drop]
        have hw1 : 1 ≤ w := Nat.one_le_iff_ne_zero.mpr hw
        simp only [List.length_cons] at hlen ⊢
        omega
      have heq : w * (k - 1) = w * k - w := by rw [Nat.mul_sub, Nat.mul_one]
      have hddvd : w ∣ ((a :: t).drop w).length := by
        rw [List.length_drop, hk]
        exact ⟨k - 1, heq.symm⟩
      simp only [chunkGo, List.mem_cons] at hr
      rcases hr with hr | hr
      · rw [hr, List.length_take]
        omega
      · exact ih w ((a :: t).drop w) hw hdle hddvd r hr

theorem inferGrid_eq (c0 : Int) (cs z : List Int) (p : Nat)
    (hp : argmaxNeqHead c0 cs = p) (h1 : 1 ≤ p) (h2 : p ≤ z.length) :
    inferGrid (c0 :: cs) z = some (chunkList p (z.take (p * (z.length / p)))) := by
  have hp0 : p ≠ 0 := by omega
  have hdiv1 : 1 ≤ z.length / p :=
    (Nat.one_le_div_iff (Nat.pos_of_ne_zero hp0)).mpr h2
  simp only [inferGrid, hp]
  rw [if_neg hp0, Nat.max_eq_left hdiv1]
  have h3 : p * (z.length / p) ≤ z.length := by
    rw [Nat.mul_comm]
    exact Nat.div_mul_le_self z.length p
  have hlen : (z.take (p * (z.length / p))).length = p * (z.length / p) := by
    rw [List.length_take]
    exact Nat.min_eq_left h3
  simp only [reshapeRows, hlen, Nat.mul_mod_right]
  rw [if_pos ⟨hp0, trivial⟩]

theorem setLabels_pres (st st' : State) (xi yi : Nat)
    (h : setLabels st xi yi = some st') :
    st'.widget = st.widget ∧ st'.x = st.x ∧ st'.y = st.y ∧ st'.zgrid = st.zgrid ∧
    st'.levels = st.levels ∧ st'.varNames = st.varNames ∧
    st'.xboxItems = st.xboxItems ∧ st'.yboxItems = st.yboxItems ∧
    st'.zboxItems = st.zboxItems ∧ st'.xboxCurrent = st.xboxCurrent ∧
    st'.yboxCurrent = st.yboxCurrent ∧ st'.zboxCurrent = st.zboxCurrent ∧
    st'.xindex = st.xindex ∧ st'.yindex = st.yindex ∧ st'.zindex = st.zindex ∧
    st'.filename = st.filename ∧ st'.slowbox = st.slowbox := by
  unfold setLabels at h
  split at h
  · injection h with h2
    subst h2
    exact ⟨rfl, rfl, rfl, rfl, rfl, rfl, rfl, rfl, rfl, rfl, rfl, rfl, rfl, rfl,
      rfl, rfl, rfl⟩
  · simp at h

theorem setLabels_total (st : State) (xi yi : Nat)
    (h1 : xi < st.varNames.length) (h2 : yi < st.varNames.length) :
    (setLabels st xi yi).isSome = true := by
  unfold setLabels
  rw [List.get?_eq_get h1, List.get?_eq_get h2]
  rfl

theorem latestCsvGo (files : List (String × Int)) :
    ∀ acc : String × Int,
    (files.foldl latestCsvStep acc = acc ∨
      (files.foldl latestCsvStep acc ∈ files ∧
        csvIn (files.foldl latestCsvStep acc).1 = true)) ∧
    acc.2 ≤ (files.foldl latestCsvStep acc).2 ∧
    ∀ p ∈ files, csvIn p.1 = true → p.2 ≤ (files.foldl latestCsvStep acc).2 := by
  induction files with
  | nil =>
    intro acc
    simp
  | cons hd tl ih =>
    intro acc
    rw [List.foldl_cons]
    obtain ⟨ih1, ih2, ih3⟩ := ih (latestCsvStep acc hd)
    have hstepcases : latestCsvStep acc hd = hd ∨ latestCsvStep acc hd = acc := by
      unfold latestCsvStep
      split
      · split
        · exact Or.inl rfl
        · exact Or.inr rfl
      · exact Or.inr rfl
    have hstep2 : acc.2 ≤ (latestCsvStep acc hd).2 := by
      unfold latestCsvStep
      split
      · split
        · omega
        · omega
      · omega
    have hstephd : csvIn hd.1 = true → hd.2 ≤ (latestCsvStep acc hd).2 := by
      intro hc
      unfold latestCsvStep
      rw [if_pos hc]
      split
      · omega
      · omega
    have hstepcsv : latestCsvStep acc hd = hd → csvIn hd.1 = true ∨ hd = acc := by
      intro hsh
      unfold latestCsvStep at hsh
      by_cases hc : csvIn hd.1 = true
      · exact Or.inl hc
      · rw [if_neg hc] at hsh
        exact Or.inr hsh.symm
    refine ⟨?_, le_trans hstep2 ih2, ?_⟩
    · rcases ih1 with h | ⟨hm, hcs⟩
      · rcases hstepcases with hh | ha
        · rw [hh] at h
          rw [hh, h]
          rcases hstepcsv hh with hc | hha
          · exact Or.inr ⟨List.mem_cons_self _ _, hc⟩
          · exact Or.inl hha
        · rw [ha] at h
          rw [ha]
          exact Or.inl h
      · exact Or.inr ⟨List.mem_cons_of_mem _ hm, hcs⟩
    · intro p hp hpcsv
      rcases List.mem_cons.mp hp with rfl | hptl
      · exact le_trans (hstephd hpcsv) ih2
      · exact ih3 p hptl hpcsv

/-- A parsed file holding a single sample per variable (the degenerate
single-point sweep). -/
def parseOneRow : String → List ParsedVar := fun _ =>
  [ ⟨ "x", [5] ⟩, ⟨ "y", [7] ⟩, ⟨ "z", [9] ⟩ ]

/-- C1: the inferred period is indeed the first index whose coordinate
differs from the first sample (3 for [0,0,0,1,1,1,2,2,2], and a 9-sample
value series then reshapes to a 3x3 grid); but for a fast axis [5] that
never changes value the inference yields 0, not a clamp-to-one floor:
int(len(z)/length) then divides by zero and the image path raises
(inferGrid = none and the whole updateData call fails), because the
max(..., 1) floor of line 689 is applied to the row count (cutoff), not
to the period. -/
theorem C1_period_inference :
    argmaxNeqHead 0 [0, 0, 1, 1, 1, 2, 2, 2] = 3 ∧
    inferGrid [0, 0, 0, 1, 1, 1, 2, 2, 2] [10, 11, 12, 13, 14, 15, 16, 17, 18]
      = some [[10, 11, 12], [13, 14, 15], [16, 17, 18]] ∧
    argmaxNeqHead 5 [] = 0 ∧
    inferGrid [5] [9] = none ∧
    updateData parseOneRow stBase 0 1 2 false = none := by
  decide

/-- C2: whenever the inferred period p is at least 1 and no longer than
the value series, the reshape succeeds and uses exactly the prefix of
the value series of length p * (len / p) - the largest multiple of p not
exceeding the series length (the trailing partial row is dropped); the
grid has len / p rows of p samples each, and the swapped orientation
stores the transpose of that grid. -/
theorem C2_reshape (c0 : Int) (cs z : List Int) (p m : Nat)
    (hp : argmaxNeqHead c0 cs = p) (h1 : 1 ≤ p) (h2 : p ≤ z.length) :
    inferGrid (c0 :: cs) z = some (chunkList p (z.take (p * (z.length / p)))) ∧
    (chunkList p (z.take (p * (z.length / p)))).flatten
      = z.take (p * (z.length / p)) ∧
    (chunkList p (z.take (p * (z.length / p)))).length = z.length / p ∧
    (chunkList p (z.take (p * (z.length / p)))).all
      (fun r => r.length == p) = true ∧
    p * (z.length / p) ≤ z.length ∧
    (p ∣ m → m ≤ z.length → m ≤ p * (z.length / p)) ∧
    inferGridSw (c0 :: cs) z
      = some (List.transpose (chunkList p (z.take (p * (z.length / p))))) := by
  have hp0 : p ≠ 0 := by omega
  have hgrid := inferGrid_eq c0 cs z p hp h1 h2
  have h3 : p * (z.length / p) ≤ z.length := by
    rw [Nat.mul_comm]
    exact Nat.div_mul_le_self z.length p
  have hlen : (z.take (p * (z.length / p))).length = p * (z.length / p) := by
    rw [List.length_take]
    exact Nat.min_eq_left h3
  have hdvd : p ∣ (z.take (p * (z.length / p))).length := by
    rw [hlen]
    exact Dvd.intro _ rfl
  refine ⟨hgrid, ?_, ?_, ?_, h3, ?_, ?_⟩
  · exact chunkGo_flatten _ p _ hp0 (le_refl _)
  · rw [chunkList, chunkGo_length _ p _ hp0 (le_refl _) hdvd, hlen,
      Nat.mul_div_cancel_left _ (Nat.pos_of_ne_zero hp0)]
  · refine List.all_eq_true.mpr ?_
    intro r hr
    have := chunkGo_rows _ p _ hp0 (le_refl _) hdvd r hr
    simpa using this
  · intro hdm hlem
    obtain ⟨k, rfl⟩ := hdm
    have hk : k ≤ z.length / p := by
      rw [Nat.le_div_iff_mul_le (Nat.pos_of_ne_zero hp0), Nat.mul_comm]
      exact hlem
    exact Nat.mul_le_mul_left p hk
  · rw [inferGridSw, hgrid]
    rfl

/-- C2 witness: a value series of length 10 with inferred period 3
reshapes from its first 9 samples into a 3x3 grid, and the swapped
orientation yields the transpose. -/
theorem C2_reshape_witness :
    inferGrid [0, 0, 0, 1, 1, 1, 2, 2, 2] [1, 2, 3, 4, 5, 6, 7, 8, 9, 10]
      = some [[1, 2, 3], [4, 5, 6], [7, 8, 9]] ∧
    inferGridSw [0, 0, 0, 1, 1, 1, 2, 2, 2] [1, 2, 3, 4, 5, 6, 7, 8, 9, 10]
      = some [[1, 4, 7], [2, 5, 8], [3, 6, 9]] := by
  have h := C2_reshape 0 [0, 0, 1, 1, 1, 2, 2, 2] [1, 2, 3, 4, 5, 6, 7, 8, 9, 10]
    3 9 (by decide) (by decide) (by decide)
  exact ⟨h.1.trans (by decide), (h.2.2.2.2.2.2).trans (by decide)⟩

/-- C4 counterexample: the filter of line 743 is the Python substring
test '.csv' in f, not a suffix filter: between Data/a.csv (mtime 5) and
Data/b.csv.old (mtime 9) the scan returns Data/b.csv.old, a file that
does not end in .csv, contradicting the claim that non-suffix-matching
files never participate. -/
theorem C4_counterexample :
    latestCsv [ ( "Data/a.csv", 5 ), ( "Data/b.csv.old", 9 ) ]
      = ( "Data/b.csv.old", 9 ) ∧
    endsIn ".csv" "Data/b.csv.old" = false ∧
    csvIn "Data/b.csv.old" = true ∧
    endsIn ".csv" "Data/a.csv" = true := by
  decide

/-- C4 amended: among the walked files whose path contains ".csv" as a
substring (not only suffix matches) and whose modification times are
positive, the scan returns a participating file carrying the maximum
modification time; when no path contains ".csv" it returns the
"none found" pair ("", 0). -/
theorem C4_locator (files : List (String × Int)) (q : String × Int)
    (hpos : files.all (fun p => !csvIn p.1 || decide (0 < p.2)) = true) :
    (files.all (fun p => !csvIn p.1) = true → latestCsv files = ( "", 0 )) ∧
    (q ∈ files → csvIn q.1 = true →
      latestCsv files ∈ files ∧ csvIn (latestCsv files).1 = true ∧
        q.2 ≤ (latestCsv files).2) := by
  obtain ⟨h1, _, h3⟩ := latestCsvGo files ( "", 0 )
  constructor
  · intro hall
    rcases h1 with h | ⟨hm, hcs⟩
    · exact h
    · exfalso
      have hcon := List.all_eq_true.mp hall _ hm
      rw [hcs] at hcon
      simp at hcon
  · intro hq hqcsv
    have hqpos : 0 < q.2 := by
      have hcon := List.all_eq_true.mp hpos q hq
      rw [hqcsv] at hcon
      simpa using hcon
    have hle := h3 q hq hqcsv
    rcases h1 with h | ⟨hm, hcs⟩
    · exfalso
      rw [h] at hle
      simp at hle
      omega
    · exact ⟨hm, hcs, hle⟩

/-- The scenario of the claim: three suffix-matching files with
modification times 1 < 2 < 3. -/
def filesT : List (String × Int) :=
  [ ( "Data/a.csv", 1 ), ( "Data/b.csv", 2 ), ( "Data/c.csv", 3 ) ]

/-- C4 witness: on three matching files with times 1 < 2 < 3 the scan
returns a matching member carrying a time at least 3, hence the t3
file. -/
theorem C4_locator_witness :
    (filesT.all (fun p => !csvIn p.1) = true → latestCsv filesT = ( "", 0 )) ∧
    (( "Data/c.csv", (3 : Int) ) ∈ filesT → csvIn "Data/c.csv" = true →
      latestCsv filesT ∈ filesT ∧ csvIn (latestCsv filesT).1 = true ∧
        (3 : Int) ≤ (latestCsv filesT).2) :=
  C4_locator filesT ( "Data/c.csv", 3 ) (by decide)

/-- C5 counterexample: the v1.1 locator is built on os.listdir, which
raises on a missing (or unreadable) watched directory; the tick fails
there instead of yielding the "none found" outcome the claim promises. -/
theorem C5_counterexample :
    locateLatestV1 FS.missing = none ∧
    locateLatestV1 FS.unreadable = none ∧
    ¬ locateLatestV1 FS.missing = some ( "", 0 ) := by
  decide

/-- C5 amended: the walk-based ticks (dual and heatmap variants) treat an
empty, missing or unreadable directory as "none found" and leave the
state untouched without any error, and the listdir-based v1.1 locator is
safe on an empty directory; but on a missing or unreadable directory the
v1.1 locator raises (see the counterexample). -/
theorem C5_locator_safe (parse : String → List ParsedVar)
    (abspath : String → String) (st : State) :
    livePlotting parse abspath FS.missing st = some st ∧
    livePlotting parse abspath FS.unreadable st = some st ∧
    livePlotting parse abspath (FS.present []) st = some st ∧
    locateLatestV1 (FS.present []) = some ( "", 0 ) :=
  ⟨rfl, rfl, rfl, rfl⟩

theorem updateDataCore_cases (data : List ParsedVar) (st1 st' : State)
    (xi yi : Nat) (zi : Int)
    (h : updateDataCore data st1 xi yi zi = some st') :
    (∃ xvar, data.get? xi = some xvar ∧ xvar.data = [] ∧
      setLabels (emptyBranch st1) xi yi = some st') ∨
    (∃ xvar yvar, data.get? xi = some xvar ∧ xvar.data ≠ [] ∧
      (zi = -1 ∨ zi = (st1.varNames.length : Int) - 1) ∧
      data.get? yi = some yvar ∧
      setLabels (lineBranch st1 xvar.data yvar.data) xi yi = some st') ∨
    (∃ xvar yvar zvar gl, data.get? xi = some xvar ∧ xvar.data ≠ [] ∧
      ¬(zi = -1 ∨ zi = (st1.varNames.length : Int) - 1) ∧
      data.get? yi = some yvar ∧ pyGetV data zi = some zvar ∧
      imageBranch st1.slowbox xvar.data yvar.data zvar.data = some gl ∧
      setLabels (imageSet st1 xvar.data yvar.data gl) xi yi = some st') := by
  unfold updateDataCore at h
  split at h
  · simp at h
  · rename_i xvar hx
    split at h
    · rename_i hemp
      exact Or.inl ⟨xvar, hx, hemp, h⟩
    · rename_i hne
      split at h
      · rename_i hz
        split at h
        · simp at h
        · rename_i yvar hy
          exact Or.inr (Or.inl ⟨xvar, yvar, hx, hne, hz, hy, h⟩)
      · rename_i hz
        split at h
        · rename_i yvar zvar hy hzv
          split at h
          · simp at h
          · rename_i gl hgl
            exact Or.inr (Or.inr ⟨xvar, yvar, zvar, gl, hx, hne, hz, hy, hzv, hgl, h⟩)
        · simp at h

theorem updateDataCore_empty_total (data : List ParsedVar) (st1 : State)
    (xi yi : Nat) (zi : Int) (xvar : ParsedVar)
    (hx : data.get? xi = some xvar) (he : xvar.data = [])
    (h3 : xi < st1.varNames.length) (h4 : yi < st1.varNames.length) :
    ∃ st', updateDataCore data st1 xi yi zi = some st' ∧
      setLabels (emptyBranch st1) xi yi = some st' := by
  have htot : (setLabels (emptyBranch st1) xi yi).isSome = true := by
    apply setLabels_total
    · simpa [emptyBranch] using h3
    · simpa [emptyBranch] using h4
  obtain ⟨st', hst⟩ := Option.isSome_iff_exists.mp htot
  refine ⟨st', ?_, hst⟩
  simp only [updateDataCore, hx]
  rw [if_pos he]
  exact hst

theorem updateDataCore_line_total (data : List ParsedVar) (st1 : State)
    (xi yi : Nat) (zi : Int) (xvar yvar : ParsedVar)
    (hx : data.get? xi = some xvar) (hne : xvar.data ≠ [])
    (hz : zi = -1 ∨ zi = (st1.varNames.length : Int) - 1)
    (hy : data.get? yi = some yvar)
    (h3 : xi < st1.varNames.length) (h4 : yi < st1.varNames.length) :
    ∃ st', updateDataCore data st1 xi yi zi = some st' ∧
      setLabels (lineBranch st1 xvar.data yvar.data) xi yi = some st' := by
  have htot : (setLabels (lineBranch st1 xvar.data yvar.data) xi yi).isSome = true := by
    apply setLabels_total
    · simpa [lineBranch] using h3
    · simpa [lineBranch] using h4
  obtain ⟨st', hst⟩ := Option.isSome_iff_exists.mp htot
  refine ⟨st', ?_, hst⟩
  simp only [updateDataCore, hx, hy]
  rw [if_neg hne, if_pos hz]
  exact hst

/-- A parsed file whose value column is empty while the coordinate
columns are not (three samples of x and y, none of z). -/
def parseEmptyZ : String → List ParsedVar := fun _ =>
  [ ⟨ "x", [0, 0, 1] ⟩, ⟨ "y", [0, 1, 2] ⟩, ⟨ "z", [] ⟩ ]

/-- C3: the only guarded failure mode is an empty x-series, which takes
the cleared line-plot branch (third conjunct).  There is no
"insufficient data" outcome: when the inferred period (3, from fast axis
[0,0,0,1]) exceeds the value series' length (2), np.reshape raises a
ValueError and updateData fails (none) instead of falling back to the
line plot, and an empty value series under a non-empty x-series likewise
fails, at np.min. -/
theorem C3_no_insufficient_data_fallback :
    inferGrid [0, 0, 0, 1] [1, 2] = none ∧
    updateData parseShortZ stBase 0 1 2 false = none ∧
    updateData parseEmptyZ stBase 0 1 2 false = none ∧
    (updateData parseNoRows stBase 0 1 2 false).map
      (fun s => (s.widget, s.x, s.y)) = some (Widget.line, [], []) := by
  decide

/-- C9: parsing a header with zero data rows yields an empty series for
every variable, and whenever the selected x-series of the parsed data is
empty (and the label indices are in range, as every reachable selection
leaves them), updateData succeeds, clears the plotted arrays and shows
the (empty) line frame instead of raising. -/
theorem C9_zero_rows (header : List String) (v : ParsedVar)
    (parse : String → List ParsedVar) (st : State) (xi yi : Nat) (zi : Int)
    (xvar : ParsedVar)
    (hv : v ∈ parse_data header [])
    (hx : (parse st.filename).get? xi = some xvar) (he : xvar.data = [])
    (h3 : xi < st.varNames.length) (h4 : yi < st.varNames.length) :
    v.data = [] ∧
    (updateData parse st xi yi zi false).elim False
      (fun s => s.x = [] ∧ s.y = [] ∧ s.widget = Widget.line) := by
  constructor
  · simp only [parse_data, List.mem_map] at hv
    obtain ⟨i, _, rfl⟩ := hv
    rfl
  · obtain ⟨st', hst, hlab⟩ :=
      updateDataCore_empty_total (parse st.filename) st xi yi zi xvar hx he h3 h4
    obtain ⟨hw, hx2, hy2, _⟩ := setLabels_pres _ _ _ _ hlab
    unfold updateData
    rw [hst]
    simp only [Option.elim]
    refine ⟨?_, ?_, ?_⟩
    · rw [hx2]
      rfl
    · rw [hy2]
      rfl
    · rw [hw]
      rfl

/-- C6: with the value-axis selection on the Python default -1 or on the
"<none>" sentinel (one past the real variable list), a refresh takes the
line-plot path: the shown widget is the line plot, the stored image grid
and colorbar levels are untouched (no reshape or geometry inference
runs), and with non-empty data the line shows exactly x vs y. -/
theorem C6_sentinel_line (parse : String → List ParsedVar) (st st' : State)
    (xi yi : Nat) (zi : Int) (xv yv : ParsedVar)
    (hz : zi = -1 ∨ zi = (st.varNames.length : Int) - 1)
    (h : updateData parse st xi yi zi false = some st') :
    st'.widget = Widget.line ∧ st'.zgrid = st.zgrid ∧ st'.levels = st.levels ∧
    ((parse st.filename).get? xi = some xv → xv.data ≠ [] →
      (parse st.filename).get? yi = some yv →
      st'.x = xv.data ∧ st'.y = yv.data) := by
  unfold updateData at h
  rcases updateDataCore_cases _ _ _ _ _ _ h with
    ⟨xvar, hx, hemp, hlab⟩ | ⟨xvar, yvar, hx, hne, _, hy, hlab⟩ |
    ⟨xvar, yvar, zvar, gl, hx, hne, hzc, hy, hzv, hgl, hlab⟩
  · obtain ⟨hw, hxL, hyL, hzg, hlv, _⟩ := setLabels_pres _ _ _ _ hlab
    refine ⟨by rw [hw]; rfl, by rw [hzg]; rfl, by rw [hlv]; rfl, ?_⟩
    intro hxv hnev _
    rw [hx] at hxv
    injection hxv with hxv
    rw [← hxv] at hnev
    exact absurd hemp hnev
  · obtain ⟨hw, hxL, hyL, hzg, hlv, _⟩ := setLabels_pres _ _ _ _ hlab
    refine ⟨by rw [hw]; rfl, by rw [hzg]; rfl, by rw [hlv]; rfl, ?_⟩
    intro hxv _ hyv
    rw [hx] at hxv
    injection hxv with hxv
    rw [hy] at hyv
    injection hyv with hyv
    subst hxv
    subst hyv
    exact ⟨by rw [hxL]; rfl, by rw [hyL]; rfl⟩
  · exact absurd hz hzc

/-- The state the heatmap window reaches after refreshing stBase against
the 3 x 3 sweep file with the value axis on the sentinel. -/
def stLineResult : State :=
  { stBase with
      x := [0, 0, 0, 1, 1, 1, 2, 2, 2],
      y := [0, 1, 2, 0, 1, 2, 0, 1, 2],
      bottomLabel := "x", leftLabel := "y" }

/-- C6 witness: on the 3 x 3 sweep file, selecting the sentinel (row 3,
one past the three variables) yields the line widget showing x vs y and
leaves the image grid alone. -/
theorem C6_sentinel_line_witness :
    stLineResult.widget = Widget.line ∧ stLineResult.zgrid = stBase.zgrid ∧
    stLineResult.levels = stBase.levels ∧
    ((parseSweep stBase.filename).get? 0
        = some ⟨ "x", [0, 0, 0, 1, 1, 1, 2, 2, 2] ⟩ →
      (⟨ "x", [0, 0, 0, 1, 1, 1, 2, 2, 2] ⟩ : ParsedVar).data ≠ [] →
      (parseSweep stBase.filename).get? 1
        = some ⟨ "y", [0, 1, 2, 0, 1, 2, 0, 1, 2] ⟩ →
      stLineResult.x = [0, 0, 0, 1, 1, 1, 2, 2, 2] ∧
      stLineResult.y = [0, 1, 2, 0, 1, 2, 0, 1, 2]) :=
  C6_sentinel_line parseSweep stBase stLineResult 0 1 3
    ⟨ "x", [0, 0, 0, 1, 1, 1, 2, 2, 2] ⟩ ⟨ "y", [0, 1, 2, 0, 1, 2, 0, 1, 2] ⟩
    (Or.inr (by decide)) (by decide)

/-- C10: a new-file load (updateData with newFile=True) always leaves the
value-axis selection on the "<none>" sentinel - the position one past
the real variable list, equal to the number of parsed variables - and
when the call passes the default zindex -1, as both call sites do, the
widget shown afterwards is the line plot, never the image. -/
theorem C10_newfile_sentinel (parse : String → List ParsedVar) (st st' : State)
    (xi yi : Nat) (zi : Int)
    (h : updateData parse st xi yi zi true = some st') :
    st'.zindex = ((parse st.filename).length : Int) ∧
    (zi = -1 → st'.widget = Widget.line) := by
  unfold updateData at h
  rcases updateDataCore_cases _ _ _ _ _ _ h with
    ⟨xvar, hx, hemp, hlab⟩ | ⟨xvar, yvar, hx, hne, hz, hy, hlab⟩ |
    ⟨xvar, yvar, zvar, gl, hx, hne, hzc, hy, hzv, hgl, hlab⟩
  · obtain ⟨hw, _, _, _, _, _, _, _, _, _, _, _, _, _, hzi, _, _⟩ :=
      setLabels_pres _ _ _ _ hlab
    constructor
    · rw [hzi]
      simp [emptyBranch, newFileUpdate]
    · intro _
      rw [hw]
      rfl
  · obtain ⟨hw, _, _, _, _, _, _, _, _, _, _, _, _, _, hzi, _, _⟩ :=
      setLabels_pres _ _ _ _ hlab
    constructor
    · rw [hzi]
      simp [lineBranch, newFileUpdate]
    · intro _
      rw [hw]
      rfl
  · obtain ⟨hw, _, _, _, _, _, _, _, _, _, _, _, _, _, hzi, _, _⟩ :=
      setLabels_pres _ _ _ _ hlab
    constructor
    · rw [hzi]
      simp [imageSet, newFileUpdate]
    · intro hzm
      exact absurd (Or.inl hzm) hzc

/-- The state the heatmap window reaches right after loading the
two-variable file as a new file. -/
def stNewFileResult : State :=
  { varNames := [ "A", "B", "<none>" ],
    xboxItems := [ "A", "B" ],
    yboxItems := [ "A", "B" ],
    zboxItems := [ "A", "B", "<none>" ],
    xboxCurrent := 0, yboxCurrent := 1, zboxCurrent := 2,
    xindex := 0, yindex := 1, zindex := 2,
    x := [1, 2], y := [3, 4], zgrid := [], levels := (0, 0),
    widget := Widget.line,
    bottomLabel := "A", leftLabel := "B",
    filename := "Data/run.csv", slowbox := false }

/-- C10 witness: loading the two-variable file as a new file puts the
value axis on the sentinel (position 2, the number of variables) and
shows the line plot. -/
theorem C10_newfile_sentinel_witness :
    stNewFileResult.zindex = ((parseTwo stBase.filename).length : Int) ∧
    ((-1 : Int) = -1 → stNewFileResult.widget = Widget.line) :=
  C10_newfile_sentinel parseTwo stBase stNewFileResult 0 1 (-1) (by decide)

/-- C8 counterexample: selectFile does not clamp a previously chosen
index: switching (newFile=True) to a two-variable file while the cached
x index is 3 makes updateData raise an IndexError at self.data[xindex]
(none), instead of clamping 3 into the new range. -/
theorem C8_counterexample :
    updateData parseTwo stBase 3 1 (-1) true = none := by
  decide

/-- C8 amended: a new-file load rebuilds the variable list and resets all
selector contents to the new names, and forces the value-axis index to
the sentinel, which is always in range; the x/y indices are passed
through unchanged (never clamped), so the call only succeeds - with
every selection index valid for the new file - when the prior x/y
indices already lie inside the new variable list. -/
theorem C8_selectfile (parse : String → List ParsedVar) (st : State)
    (xi yi : Nat)
    (h1 : xi < (parse st.filename).length)
    (h2 : yi < (parse st.filename).length) :
    (updateData parse st xi yi (-1) true).elim False (fun s =>
      s.xboxItems = (parse st.filename).map ParsedVar.name ∧
      s.yboxItems = (parse st.filename).map ParsedVar.name ∧
      s.zboxItems = (parse st.filename).map ParsedVar.name ++ [ "<none>" ] ∧
      s.varNames = (parse st.filename).map ParsedVar.name ++ [ "<none>" ] ∧
      s.zindex = (((parse st.filename).map ParsedVar.name).length : Int) ∧
      s.zindex < (s.zboxItems.length : Int) ∧
      s.xindex = st.xindex ∧ s.yindex = st.yindex) := by
  have hb3 : xi < (newFileUpdate (parse st.filename) st xi yi).varNames.length := by
    simp only [newFileUpdate, List.length_append, List.length_map,
      List.length_singleton]
    omega
  have hb4 : yi < (newFileUpdate (parse st.filename) st xi yi).varNames.length := by
    simp only [newFileUpdate, List.length_append, List.length_map,
      List.length_singleton]
    omega
  have hx : (parse st.filename).get? xi
      = some ((parse st.filename).get ⟨xi, h1⟩) := List.get?_eq_get h1
  have hy : (parse st.filename).get? yi
      = some ((parse st.filename).get ⟨yi, h2⟩) := List.get?_eq_get h2
  by_cases hemp : ((parse st.filename).get ⟨xi, h1⟩).data = []
  · obtain ⟨st', hst, hlab⟩ := updateDataCore_empty_total (parse st.filename)
      (newFileUpdate (parse st.filename) st xi yi) xi yi (-1) _ hx hemp hb3 hb4
    obtain ⟨_, _, _, _, _, hvn, hxb, hyb, hzb, _, _, _, hxi, hyi, hzi, _, _⟩ :=
      setLabels_pres _ _ _ _ hlab
    unfold updateData
    rw [hst]
    simp only [Option.elim]
    refine ⟨?_, ?_, ?_, ?_, ?_, ?_, ?_, ?_⟩
    · rw [hxb]; simp [emptyBranch, newFileUpdate]
    · rw [hyb]; simp [emptyBranch, newFileUpdate]
    · rw [hzb]; simp [emptyBranch, newFileUpdate]
    · rw [hvn]; simp [emptyBranch, newFileUpdate]
    · rw [hzi]; simp [emptyBranch, newFileUpdate]
    · rw [hzi, hzb]
      simp [emptyBranch, newFileUpdate]
    · rw [hxi]; simp [emptyBranch, newFileUpdate]
    · rw [hyi]; simp [emptyBranch, newFileUpdate]
  · obtain ⟨st', hst, hlab⟩ := updateDataCore_line_total (parse st.filename)
      (newFileUpdate (parse st.filename) st xi yi) xi yi (-1) _ _ hx hemp
      (Or.inl rfl) hy hb3 hb4
    obtain ⟨_, _, _, _, _, hvn, hxb, hyb, hzb, _, _, _, hxi, hyi, hzi, _, _⟩ :=
      setLabels_pres _ _ _ _ hlab
    unfold updateData
    rw [hst]
    simp only [Option.elim]
    refine ⟨?_, ?_, ?_, ?_, ?_, ?_, ?_, ?_⟩
    · rw [hxb]; simp [lineBranch, newFileUpdate]
    · rw [hyb]; simp [lineBranch, newFileUpdate]
    · rw [hzb]; simp [lineBranch, newFileUpdate]
    · rw [hvn]; simp [lineBranch, newFileUpdate]
    · rw [hzi]; simp [lineBranch, newFileUpdate]
    · rw [hzi, hzb]
      simp [lineBranch, newFileUpdate]
    · rw [hxi]; simp [lineBranch, newFileUpdate]
    · rw [hyi]; simp [lineBranch, newFileUpdate]

/-- C8 witness: loading the two-variable file with prior indices (0, 1)
succeeds and leaves every selection index valid for the new file. -/
theorem C8_selectfile_witness :
    (updateData parseTwo stBase 0 1 (-1) true).elim False (fun s =>
      s.xboxItems = (parseTwo stBase.filename).map ParsedVar.name ∧
      s.yboxItems = (parseTwo stBase.filename).map ParsedVar.name ∧
      s.zboxItems = (parseTwo stBase.filename).map ParsedVar.name ++ [ "<none>" ] ∧
      s.varNames = (parseTwo stBase.filename).map ParsedVar.name ++ [ "<none>" ] ∧
      s.zindex = (((parseTwo stBase.filename).map ParsedVar.name).length : Int) ∧
      s.zindex < (s.zboxItems.length : Int) ∧
      s.xindex = stBase.xindex ∧ s.yindex = stBase.yindex) :=
  C8_selectfile parseTwo stBase 0 1 (by decide) (by decide)

/-- C7: for a consistent window state (the zbox current row mirrors the
cached zindex, which is non-negative, and the zbox holds as many rows as
var_names), a refresh - updateData on the same file with the cached
indices and newFile left False - preserves all selector contents,
current rows, cached indices and var_names; a new-file load always
resets the selector contents to the freshly parsed names; and the
live-poll tick runs the newFile=True rebuild exactly when the discovered
file's absolute path differs from the stored one, and the plain refresh
when it does not. -/
theorem C7_refresh_vs_select (parse : String → List ParsedVar)
    (abspath : String → String) (st stR stN : State) (xi yi : Nat) (fs : FS)
    (hz0 : 0 ≤ st.zindex) (hzc : st.zboxCurrent = st.zindex)
    (hlen : st.zboxItems.length = st.varNames.length) :
    (updateData parse st st.xindex st.yindex st.zindex false = some stR →
      stR.xboxItems = st.xboxItems ∧ stR.yboxItems = st.yboxItems ∧
      stR.zboxItems = st.zboxItems ∧ stR.xboxCurrent = st.xboxCurrent ∧
      stR.yboxCurrent = st.yboxCurrent ∧ stR.zboxCurrent = st.zboxCurrent ∧
      stR.xindex = st.xindex ∧ stR.yindex = st.yindex ∧
      stR.zindex = st.zindex ∧ stR.varNames = st.varNames) ∧
    (updateData parse st xi yi (-1) true = some stN →
      stN.xboxItems = (parse st.filename).map ParsedVar.name ∧
      stN.yboxItems = (parse st.filename).map ParsedVar.name ∧
      stN.zboxItems = (parse st.filename).map ParsedVar.name ++ [ "<none>" ]) ∧
    (0 < (latestCsv (osWalk fs)).1.length →
      (abspath (latestCsv (osWalk fs)).1 = st.filename →
        livePlotting parse abspath fs st
          = updateData parse st st.xindex st.yindex st.zindex false) ∧
      (¬ abspath (latestCsv (osWalk fs)).1 = st.filename →
        livePlotting parse abspath fs st
          = updateData parse { st with filename := abspath (latestCsv (osWalk fs)).1 }
              st.xindex st.yindex (-1) true)) := by
  refine ⟨?_, ?_, ?_⟩
  · intro h
    unfold updateData at h
    rcases updateDataCore_cases _ _ _ _ _ _ h with
      ⟨xvar, hx, hemp, hlab⟩ | ⟨xvar, yvar, hx, hne, hz, hy, hlab⟩ |
      ⟨xvar, yvar, zvar, gl, hx, hne, hzcnd, hy, hzv, hgl, hlab⟩
    · obtain ⟨_, _, _, _, _, hvn, hxb, hyb, hzb, hxc, hyc, hzcC, hxi, hyi, hzi, _, _⟩ :=
        setLabels_pres _ _ _ _ hlab
      exact ⟨by rw [hxb]; rfl, by rw [hyb]; rfl, by rw [hzb]; rfl,
        by rw [hxc]; rfl, by rw [hyc]; rfl, by rw [hzcC]; rfl,
        by rw [hxi]; rfl, by rw [hyi]; rfl, by rw [hzi]; rfl, by rw [hvn]; rfl⟩
    · obtain ⟨_, _, _, _, _, hvn, hxb, hyb, hzb, hxc, hyc, hzcC, hxi, hyi, hzi, _, _⟩ :=
        setLabels_pres _ _ _ _ hlab
      rcases hz with hz1 | hz2
      · rw [hz1] at hz0
        exact absurd hz0 (by omega)
      · have hsc : setCurrentIdx st.zboxItems ((st.varNames.length : Int) - 1)
            = st.zboxCurrent := by
          unfold setCurrentIdx
          rw [if_pos ⟨by rw [← hz2]; exact hz0, by rw [hlen]; omega⟩, hzc, hz2]
        exact ⟨by rw [hxb]; rfl, by rw [hyb]; rfl, by rw [hzb]; rfl,
          by rw [hxc]; rfl, by rw [hyc]; rfl,
          by rw [hzcC]; simp only [lineBranch]; exact hsc,
          by rw [hxi]; rfl, by rw [hyi]; rfl,
          by rw [hzi]; simp only [lineBranch]; exact hz2.symm,
          by rw [hvn]; rfl⟩
    · obtain ⟨_, _, _, _, _, hvn, hxb, hyb, hzb, hxc, hyc, hzcC, hxi, hyi, hzi, _, _⟩ :=
        setLabels_pres _ _ _ _ hlab
      exact ⟨by rw [hxb]; rfl, by rw [hyb]; rfl, by rw [hzb]; rfl,
        by rw [hxc]; rfl, by rw [hyc]; rfl, by rw [hzcC]; rfl,
        by rw [hxi]; rfl, by rw [hyi]; rfl, by rw [hzi]; rfl, by rw [hvn]; rfl⟩
  · intro h
    unfold updateData at h
    rcases updateDataCore_cases _ _ _ _ _ _ h with
      ⟨xvar, hx, hemp, hlab⟩ | ⟨xvar, yvar, hx, hne, hz, hy, hlab⟩ |
      ⟨xvar, yvar, zvar, gl, hx, hne, hzcnd, hy, hzv, hgl, hlab⟩
    · obtain ⟨_, _, _, _, _, _, hxb, hyb, hzb, _⟩ := setLabels_pres _ _ _ _ hlab
      exact ⟨by rw [hxb]; rfl, by rw [hyb]; rfl, by rw [hzb]; rfl⟩
    · obtain ⟨_, _, _, _, _, _, hxb, hyb, hzb, _⟩ := setLabels_pres _ _ _ _ hlab
      exact ⟨by rw [hxb]; rfl, by rw [hyb]; rfl, by rw [hzb]; rfl⟩
    · obtain ⟨_, _, _, _, _, _, hxb, hyb, hzb, _⟩ := setLabels_pres _ _ _ _ hlab
      exact ⟨by rw [hxb]; rfl, by rw [hyb]; rfl, by rw [hzb]; rfl⟩
  · intro hfound
    constructor
    · intro hsame
      unfold livePlotting
      rw [if_pos hfound, if_pos hsame]
    · intro hdiff
      unfold livePlotting
      rw [if_pos hfound, if_neg hdiff]

/-- C7 witness: with the 3 x 3 sweep file discovered under the same
absolute path as the stored one, the tick runs the plain refresh, and
the refresh on the consistent base state preserves the zbox contents and
the cached value-axis index. -/
theorem C7_refresh_vs_select_witness :
    livePlotting parseSweep (fun s => s) (FS.present [ ( "Data/run.csv", 7 ) ]) stBase
      = updateData parseSweep stBase stBase.xindex stBase.yindex stBase.zindex false ∧
    stLineResult.zboxItems = stBase.zboxItems ∧
    stLineResult.zindex = stBase.zindex := by
  have h := C7_refresh_vs_select parseSweep (fun s => s) stBase stLineResult
    stLineResult 0 1 (FS.present [ ( "Data/run.csv", 7 ) ])
    (by decide) (by decide) (by decide)
  refine ⟨(h.2.2 (by decide)).1 (by decide), ?_, ?_⟩
  · exact (h.1 (by decide)).2.2.1
  · exact (h.1 (by decide)).2.2.2.2.2.2.2.2.1

/-- C9 witness: the zero-row three-variable file parses to an empty x
series, and refreshing against it clears the plot and keeps the line
frame. -/
theorem C9_zero_rows_witness :
    (⟨ "x", [] ⟩ : ParsedVar).data = [] ∧
    (updateData parseNoRows stBase 0 1 2 false).elim False
      (fun s => s.x = [] ∧ s.y = [] ∧ s.widget = Widget.line) :=
  C9_zero_rows [ "x", "y", "z" ] ⟨ "x", [] ⟩ parseNoRows stBase 0 1 2
    ⟨ "x", [] ⟩ (by decide) (by decide) rfl (by decide) (by decide)
